import Mathlib

/-!
Verification of the checkout GraphQL resolver layer, the email-change
confirmation behaviour and the payment-transaction mutation exports of the
saleor repository, via a shallow embedding of
`saleor/graphql/checkout/types.py`,
`saleor/graphql/payment/mutations/transaction/__init__.py` and the
email-change confirmation tests.

Monetary amounts (Python `Decimal`) are embedded as rationals.  A Python
exception (e.g. the `ValueError` raised by the `prices` library when two
amounts in different currencies are combined) is embedded as `Option.none`.
-/

namespace Saleor

/-- A `prices.Money` value: a decimal amount tagged with a currency code. -/
structure Money where
  amount : ℚ
  currency : String
deriving Repr, DecidableEq

/-- `saleor.core.taxes.zero_money`: `Money(0, currency)`. -/
def zero_money (currency : String) : Money :=
  { amount := 0, currency := currency }

/-- `prices.Money.__add__`: adds the amounts when the currencies agree and
raises `ValueError` (here: `none`) otherwise. -/
def Money.add (a b : Money) : Option Money :=
  if a.currency = b.currency then
    some { amount := a.amount + b.amount, currency := a.currency }
  else
    none

/-- `prices.Money.__sub__`: subtracts the amounts when the currencies agree
and raises `ValueError` (here: `none`) otherwise. -/
def Money.sub (a b : Money) : Option Money :=
  if a.currency = b.currency then
    some { amount := a.amount - b.amount, currency := a.currency }
  else
    none

/-- A `prices.TaxedMoney` value: a net and a gross `Money`. -/
structure TaxedMoney where
  net : Money
  gross : Money
deriving Repr, DecidableEq

/-- `saleor.core.taxes.zero_taxed_money`: zero net and zero gross in the
given currency. -/
def zero_taxed_money (currency : String) : TaxedMoney :=
  { net := zero_money currency, gross := zero_money currency }

/-- Python `max(a, b)` on `prices.TaxedMoney` values.  CPython's `max`
keeps `a` and replaces it by `b` only when `b > a`; `TaxedMoney.__gt__`
compares the gross parts, and `Money` comparison raises `ValueError`
(here: `none`) when the currencies differ. -/
def taxedMoneyMax (a b : TaxedMoney) : Option TaxedMoney :=
  if b.gross.currency = a.gross.currency then
    some (if a.gross.amount < b.gross.amount then b else a)
  else
    none

/-- Python truthiness of an optional integer primary key: `None` and `0`
are falsy, every other integer is truthy. -/
def pyTruthy : Option Nat → Bool
  | none => false
  | some n => n != 0

/-- Python `x or y` on optional integer primary keys: `x` when `x` is
truthy, otherwise `y`. -/
def pyOr (x y : Option Nat) : Option Nat :=
  if pyTruthy x then x else y

/-- An `account.models.Address` row, identified by its primary key; none of
the resolvers under verification inspect its contents. -/
structure Address where
  pk : Nat
deriving Repr, DecidableEq

/-- A `channel.models.Channel` row, identified by its primary key. -/
structure Channel where
  pk : Nat
deriving Repr, DecidableEq

/-- The `plugins.manager.PluginsManager` instance delivered by
`get_plugin_manager_promise`; the resolvers only pass it on to the
calculation engine. -/
structure PluginsManager where
  id : Nat
deriving Repr, DecidableEq

/-- A `checkout.models.CheckoutLine` row with the fields the resolvers
read: primary key, quantity and the token of the owning checkout
(`checkout_id` is a foreign key to `Checkout.token`). -/
structure CheckoutLine where
  pk : Nat
  quantity : Nat
  checkout_id : Nat
deriving Repr, DecidableEq

/-- A `checkout.fetch.CheckoutLineInfo`: the resolvers read only its
`line` field. -/
structure CheckoutLineInfo where
  line : CheckoutLine
deriving Repr, DecidableEq

/-- A `checkout.fetch.CheckoutInfo`: the resolvers under verification read
only its `channel` field and otherwise pass it to the calculation engine. -/
structure CheckoutInfo where
  channel : Channel
deriving Repr, DecidableEq

/-- A `payment.models.TransactionItem` row with the two amounts read by
`resolve_total_balance`. -/
structure TransactionItem where
  amount_charged : Money
  amount_charge_pending : Money
deriving Repr, DecidableEq

/-- A `checkout.models.Checkout` row with the fields the resolvers read.
`shipping_address_id` and `billing_address_id` are nullable foreign
keys. -/
structure Checkout where
  pk : Nat
  token : Nat
  currency : String
  shipping_address_id : Option Nat
  billing_address_id : Option Nat
deriving Repr, DecidableEq

/-- The batched data loaders reachable from `info.context`.  Each loader is
embedded as the total function it computes once its batch resolves:
`AddressByIdLoader`, `CheckoutByTokenLoader`,
`CheckoutLinesInfoByCheckoutTokenLoader`,
`CheckoutInfoByCheckoutTokenLoader`, `get_plugin_manager_promise` and
`TransactionItemsByCheckoutIDLoader`. -/
structure Context where
  addressById : Nat → Address
  checkoutByToken : Nat → Checkout
  linesInfoByToken : Nat → List CheckoutLineInfo
  checkoutInfoByToken : Nat → CheckoutInfo
  manager : PluginsManager
  transactionsByCheckoutId : Nat → List TransactionItem

/-- The synchronous pricing/tax calculation engine
(`checkout.calculations` and `checkout.base_calculations`), which lives
outside the resolver module; the resolvers treat its functions as
black boxes, so the embedding abstracts them as fields. -/
structure CalcEngine where
  calculate_checkout_total_with_gift_cards :
    PluginsManager → CheckoutInfo → List CheckoutLineInfo → Option Address → TaxedMoney
  checkout_line_unit_price :
    PluginsManager → CheckoutInfo → List CheckoutLineInfo → CheckoutLineInfo → TaxedMoney
  checkout_line_total :
    PluginsManager → CheckoutInfo → List CheckoutLineInfo → CheckoutLineInfo → TaxedMoney
  calculate_undiscounted_base_line_unit_price :
    CheckoutLineInfo → Channel → Money
  calculate_undiscounted_base_line_total_price :
    CheckoutLineInfo → Channel → Money

/-- `get_dataloaders_for_fetching_checkout_data` (types.py lines 87-100):
`address_id = root.shipping_address_id or root.billing_address_id`;
the address promise is `AddressByIdLoader.load(address_id)` when
`address_id` is truthy and `None` otherwise; the lines, checkout-info and
plugin-manager promises are always produced from the checkout token. -/
def get_dataloaders_for_fetching_checkout_data (ctx : Context) (root : Checkout) :
    Option Address × List CheckoutLineInfo × CheckoutInfo × PluginsManager :=
  let address_id := pyOr root.shipping_address_id root.billing_address_id
  let address : Option Address :=
    if pyTruthy address_id then Option.map ctx.addressById address_id else none
  let lines := ctx.linesInfoByToken root.token
  let checkout_info := ctx.checkoutInfoByToken root.token
  let manager := ctx.manager
  (address, lines, checkout_info, manager)

/-- `CheckoutLine.resolve_unit_price` (types.py lines 185-224): loads the
owning checkout and the plugin manager, then the checkout info and the
line infos by the checkout token, scans the line infos for the first one
whose `line.pk` equals the resolved line's `pk` and returns
`calculations.checkout_line_unit_price` for it, or `None` when no line
info matches. -/
def CheckoutLine.resolve_unit_price (E : CalcEngine) (ctx : Context)
    (root : CheckoutLine) : Option TaxedMoney :=
  let checkout := ctx.checkoutByToken root.checkout_id
  let manager := ctx.manager
  let checkout_info := ctx.checkoutInfoByToken checkout.token
  let lines := ctx.linesInfoByToken checkout.token
  (lines.find? fun line_info => line_info.line.pk == root.pk).map
    fun line_info => E.checkout_line_unit_price manager checkout_info lines line_info

/-- `CheckoutLine.resolve_undiscounted_unit_price` (types.py lines
226-260): loads the owning checkout, then the checkout info and line
infos; for the first line info whose `line.pk` equals the resolved line's
`pk` it returns `calculate_undiscounted_base_line_unit_price` with the
checkout info's channel, or `None` when no line info matches. -/
def CheckoutLine.resolve_undiscounted_unit_price (E : CalcEngine) (ctx : Context)
    (root : CheckoutLine) : Option Money :=
  let checkout := ctx.checkoutByToken root.checkout_id
  let checkout_info := ctx.checkoutInfoByToken checkout.token
  let lines := ctx.linesInfoByToken checkout.token
  (lines.find? fun line_info => line_info.line.pk == root.pk).map
    fun line_info =>
      E.calculate_undiscounted_base_line_unit_price line_info checkout_info.channel

/-- `CheckoutLine.resolve_total_price` (types.py lines 262-294): like
`resolve_unit_price` but returns `calculations.checkout_line_total` for
the first matching line info, or `None` when no line info matches. -/
def CheckoutLine.resolve_total_price (E : CalcEngine) (ctx : Context)
    (root : CheckoutLine) : Option TaxedMoney :=
  let checkout := ctx.checkoutByToken root.checkout_id
  let manager := ctx.manager
  let checkout_info := ctx.checkoutInfoByToken checkout.token
  let lines := ctx.linesInfoByToken checkout.token
  (lines.find? fun line_info => line_info.line.pk == root.pk).map
    fun line_info => E.checkout_line_total manager checkout_info lines line_info

/-- `CheckoutLine.resolve_undiscounted_total_price` (types.py lines
296-329): like `resolve_undiscounted_unit_price` but returns
`calculate_undiscounted_base_line_total_price` for the first matching
line info, or `None` when no line info matches. -/
def CheckoutLine.resolve_undiscounted_total_price (E : CalcEngine) (ctx : Context)
    (root : CheckoutLine) : Option Money :=
  let checkout := ctx.checkoutByToken root.checkout_id
  let checkout_info := ctx.checkoutInfoByToken checkout.token
  let lines := ctx.linesInfoByToken checkout.token
  (lines.find? fun line_info => line_info.line.pk == root.pk).map
    fun line_info =>
      E.calculate_undiscounted_base_line_total_price line_info checkout_info.channel

/-- `Checkout.resolve_quantity` (types.py lines 626-635):
`sum([line_info.line.quantity for line_info in lines])` over the batched
line infos of the checkout token. -/
def Checkout.resolve_quantity (ctx : Context) (root : Checkout) : Nat :=
  let lines := ctx.linesInfoByToken root.token
  (lines.map fun line_info => line_info.line.quantity).sum

/-- `Checkout.resolve_total_price` (types.py lines 637-652): from the
batched address, line infos, checkout info and plugin manager it computes
`calculations.calculate_checkout_total_with_gift_cards` and returns
`max(taxed_total, zero_taxed_money(root.currency))`. -/
def Checkout.resolve_total_price (E : CalcEngine) (ctx : Context)
    (root : Checkout) : Option TaxedMoney :=
  match get_dataloaders_for_fetching_checkout_data ctx root with
  | (address, lines, checkout_info, manager) =>
    let taxed_total :=
      E.calculate_checkout_total_with_gift_cards manager checkout_info lines address
    taxedMoneyMax taxed_total (zero_taxed_money root.currency)

/-- One iteration of the transaction loop of `resolve_total_balance`
(types.py lines 956-958): `total_charged += transaction.amount_charged`
followed by `total_charged += transaction.amount_charge_pending`, where a
raised `ValueError` (currency mismatch) aborts the computation. -/
def chargedStep (acc : Option Money) (t : TransactionItem) : Option Money :=
  acc.bind fun m =>
    (m.add t.amount_charged).bind fun m2 => m2.add t.amount_charge_pending

/-- `Checkout.resolve_total_balance` (types.py lines 944-965): from the
batched address, line infos, checkout info, plugin manager and the
checkout's transactions it computes
`checkout_total = max(calculate_checkout_total_with_gift_cards(...),
zero_taxed_money(root.currency))`, folds
`total_charged += transaction.amount_charged;
total_charged += transaction.amount_charge_pending` over the transactions
starting from `zero_money(root.currency)`, and returns
`total_charged - checkout_total.gross`. -/
def Checkout.resolve_total_balance (E : CalcEngine) (ctx : Context)
    (root : Checkout) : Option Money :=
  match get_dataloaders_for_fetching_checkout_data ctx root with
  | (address, lines, checkout_info, manager) =>
    let transactions := ctx.transactionsByCheckoutId root.pk
    let taxed_total :=
      E.calculate_checkout_total_with_gift_cards manager checkout_info lines address
    (taxedMoneyMax taxed_total (zero_taxed_money root.currency)).bind
      fun checkout_total =>
        (transactions.foldl chargedStep (some (zero_money root.currency))).bind
          fun total_charged => total_charged.sub checkout_total.gross

/-- The decorator stacks of every resolver method defined in
`saleor/graphql/checkout/types.py`, top decorator first, transcribed from
the source (`CheckoutLine` lines 176-340, `Checkout` lines 552-965). -/
def checkoutResolverDecorators : List (String × List String) :=
  [("CheckoutLine.resolve_variant", ["staticmethod"]),
   ("CheckoutLine.resolve_unit_price",
     ["staticmethod", "prevent_sync_event_circular_query"]),
   ("CheckoutLine.resolve_undiscounted_unit_price", ["staticmethod"]),
   ("CheckoutLine.resolve_total_price",
     ["staticmethod", "traced_resolver", "prevent_sync_event_circular_query"]),
   ("CheckoutLine.resolve_undiscounted_total_price", ["staticmethod"]),
   ("CheckoutLine.resolve_requires_shipping", ["staticmethod"]),
   ("Checkout.resolve_created", ["staticmethod"]),
   ("Checkout.resolve_channel", ["staticmethod"]),
   ("Checkout.resolve_id", ["staticmethod"]),
   ("Checkout.resolve_shipping_address", ["staticmethod"]),
   ("Checkout.resolve_billing_address", ["staticmethod"]),
   ("Checkout.resolve_user", ["staticmethod"]),
   ("Checkout.resolve_email", ["staticmethod"]),
   ("Checkout.resolve_shipping_method", ["classmethod"]),
   ("Checkout.resolve_shipping_methods",
     ["classmethod", "traced_resolver", "prevent_sync_event_circular_query"]),
   ("Checkout.resolve_delivery_method", ["staticmethod"]),
   ("Checkout.resolve_quantity", ["staticmethod"]),
   ("Checkout.resolve_total_price",
     ["staticmethod", "traced_resolver", "prevent_sync_event_circular_query"]),
   ("Checkout.resolve_subtotal_price",
     ["staticmethod", "traced_resolver", "prevent_sync_event_circular_query"]),
   ("Checkout.resolve_shipping_price",
     ["staticmethod", "traced_resolver", "prevent_sync_event_circular_query"]),
   ("Checkout.resolve_lines", ["staticmethod"]),
   ("Checkout.resolve_available_shipping_methods",
     ["staticmethod", "traced_resolver", "prevent_sync_event_circular_query"]),
   ("Checkout.resolve_available_collection_points",
     ["staticmethod", "traced_resolver"]),
   ("Checkout.resolve_available_payment_gateways",
     ["staticmethod", "prevent_sync_event_circular_query",
      "plugin_manager_promise_callback"]),
   ("Checkout.resolve_gift_cards", ["staticmethod"]),
   ("Checkout.resolve_is_shipping_required", ["staticmethod"]),
   ("Checkout.resolve_language_code", ["staticmethod"]),
   ("Checkout.resolve_stock_reservation_expires",
     ["staticmethod", "traced_resolver", "load_site_callback"]),
   ("Checkout.resolve_transactions",
     ["staticmethod", "one_of_permissions_required"]),
   ("Checkout.resolve_display_gross_prices", ["staticmethod"]),
   ("Checkout.resolve_metadata", ["staticmethod"]),
   ("Checkout.resolve_metafield", ["staticmethod"]),
   ("Checkout.resolve_metafields", ["staticmethod"]),
   ("Checkout.resolve_private_metadata", ["staticmethod"]),
   ("Checkout.resolve_private_metafield", ["staticmethod"]),
   ("Checkout.resolve_private_metafields", ["staticmethod"]),
   ("Checkout.resolve_type", ["classmethod"]),
   ("Checkout.resolve_updated_at", ["classmethod"]),
   ("Checkout.resolve_authorize_status", ["classmethod"]),
   ("Checkout.resolve_charge_status", ["classmethod"]),
   ("Checkout.resolve_total_balance", ["classmethod"])]

/-- Whether the named resolver of the checkout types module carries the
`prevent_sync_event_circular_query` decorator. -/
def resolverIsGuarded (name : String) : Bool :=
  match checkoutResolverDecorators.lookup name with
  | some decorators => decorators.contains "prevent_sync_event_circular_query"
  | none => false

/-- The ten resolvers that the specification lists as invoking the
synchronous pricing/tax calculation engine. -/
def syncEngineResolvers : List String :=
  ["CheckoutLine.resolve_unit_price",
   "CheckoutLine.resolve_total_price",
   "Checkout.resolve_total_price",
   "Checkout.resolve_subtotal_price",
   "Checkout.resolve_shipping_price",
   "Checkout.resolve_shipping_methods",
   "Checkout.resolve_available_shipping_methods",
   "Checkout.resolve_available_payment_gateways",
   "Checkout.resolve_authorize_status",
   "Checkout.resolve_charge_status"]

/-- The field declarations of the `CheckoutLine` GraphQL type
(types.py lines 134-168) as `(field name, required)` pairs, transcribed
from the `graphene` field constructors. -/
def checkoutLineFields : List (String × Bool) :=
  [("id", true),
   ("variant", true),
   ("quantity", true),
   ("unit_price", true),
   ("undiscounted_unit_price", true),
   ("total_price", true),
   ("undiscounted_total_price", true),
   ("requires_shipping", true)]

/-- The names bound by the six `from .transaction_... import ...`
statements of `saleor/graphql/payment/mutations/transaction/__init__.py`
(lines 1-6), in source order. -/
def transactionMutationImports : List String :=
  ["TransactionCreate",
   "TransactionEventReport",
   "TransactionInitialize",
   "TransactionProcess",
   "TransactionRequestAction",
   "TransactionUpdate"]

/-- The `__all__` list of
`saleor/graphql/payment/mutations/transaction/__init__.py` (lines 8-15),
in source order. -/
def transactionMutationAllExports : List String :=
  ["TransactionCreate",
   "TransactionEventReport",
   "TransactionInitialize",
   "TransactionProcess",
   "TransactionRequestAction",
   "TransactionUpdate"]

/-- An `account.models.User` row with the fields the email-change tests
read: primary key, email and the search document, the latter embedded as
the list of terms it contains. -/
structure User where
  pk : Nat
  email : String
  search_document : List String
deriving Repr, DecidableEq

/-- The payload carried by an email-change token, as built in the tests:
`old_email`, `new_email` and `user_pk`. -/
structure EmailChangePayload where
  old_email : String
  new_email : String
  user_pk : Nat
deriving Repr, DecidableEq

/-- A GraphQL mutation error as asserted by the tests: `code`, `message`
and `field`. -/
structure MutationError where
  code : String
  message : String
  field : String
deriving Repr, DecidableEq

/-- The account state the email-change mutation acts on: the user table
plus the argument lists of the calls made so far to
`assign_user_gift_cards` and `match_orders_with_new_user` (each call
recorded by the primary key of the user passed). -/
structure AccountState where
  users : List User
  gift_card_assign_calls : List Nat
  order_match_calls : List Nat
deriving Repr, DecidableEq

/-- The result of the `confirmEmailChange` mutation: the updated account
state, the returned user (or `None`) and the returned error list. -/
structure ConfirmEmailChangeResult where
  state : AccountState
  user : Option User
  errors : List MutationError
deriving Repr, DecidableEq

/-- The per-user update a successful email change applies to the user
table: the requesting user (matched by primary key) receives the new
email, which is also recorded in their search document; every other user
is untouched. -/
def emailUpdate (payload : EmailChangePayload) (u : User) : User :=
  if u.pk == payload.user_pk then
    { u with email := payload.new_email,
             search_document := u.search_document ++ [payload.new_email] }
  else u

/-- Modelled from the spec: the `confirmEmailChange` mutation
(`saleor.graphql.account.mutations.account.confirm_email_change`), whose
implementation is missing from the sources — only its tests
(`test_confirm_email_change.py`) are present.  Per the spec's excerpt and
the two tests: given the payload decoded from a valid, unexpired token,
when some user already holds `new_email` the mutation returns no user and
the single error `(code UNIQUE, field newEmail, message "Email is used by
other user.")` and leaves the state untouched; otherwise it sets the
requesting user's email to `new_email`, records the new email in that
user's search document, calls `assign_user_gift_cards` and
`match_orders_with_new_user` once each with that user, and returns the
updated user.  Token decoding and expiry checking stay outside the model:
the mutation takes the decoded payload. -/
def confirmEmailChange (st : AccountState) (payload : EmailChangePayload) :
    ConfirmEmailChangeResult :=
  if st.users.any fun u => u.email == payload.new_email then
    { state := st,
      user := none,
      errors := [{ code := "UNIQUE",
                   message := "Email is used by other user.",
                   field := "newEmail" }] }
  else
    let users := st.users.map (emailUpdate payload)
    { state := { users := users,
                 gift_card_assign_calls :=
                   st.gift_card_assign_calls ++ [payload.user_pk],
                 order_match_calls := st.order_match_calls ++ [payload.user_pk] },
      user := users.find? fun u => u.pk == payload.user_pk,
      errors := [] }

/-- A sample calculation engine used to exercise the resolver embeddings on
concrete inputs. -/
def sampleEngine : CalcEngine :=
  { calculate_checkout_total_with_gift_cards := fun _ _ _ _ =>
      { net := { amount := 10, currency := "USD" },
        gross := { amount := 12, currency := "USD" } },
    checkout_line_unit_price := fun _ _ _ li =>
      { net := { amount := (li.line.quantity : ℚ), currency := "USD" },
        gross := { amount := (li.line.quantity : ℚ) + 1, currency := "USD" } },
    checkout_line_total := fun _ _ _ li =>
      { net := { amount := 2 * (li.line.quantity : ℚ), currency := "USD" },
        gross := { amount := 2 * (li.line.quantity : ℚ) + 1, currency := "USD" } },
    calculate_undiscounted_base_line_unit_price := fun li _ =>
      { amount := (li.line.quantity : ℚ), currency := "USD" },
    calculate_undiscounted_base_line_total_price := fun li _ =>
      { amount := 3 * (li.line.quantity : ℚ), currency := "USD" } }

/-- A sample calculation engine whose checkout total is negative, used to
exercise the clamping branch of the total-price resolver. -/
def sampleNegativeEngine : CalcEngine :=
  { sampleEngine with
    calculate_checkout_total_with_gift_cards := fun _ _ _ _ =>
      { net := { amount := -5, currency := "USD" },
        gross := { amount := -3, currency := "USD" } } }

/-- A sample checkout line (primary key 1, quantity 2) of the checkout
with token 5. -/
def sampleLine1 : CheckoutLine :=
  { pk := 1, quantity := 2, checkout_id := 5 }

/-- A sample checkout line (primary key 2, quantity 3) of the checkout
with token 5. -/
def sampleLine2 : CheckoutLine :=
  { pk := 2, quantity := 3, checkout_id := 5 }

/-- A sample data-loader context: the checkout with token 5 has the two
sample lines, every other checkout has none; the checkout with primary
key 1 has one transaction (5 USD charged, 2 USD pending). -/
def sampleCtx : Context :=
  { addressById := fun n => { pk := n },
    checkoutByToken := fun t =>
      { pk := 1, token := t, currency := "USD",
        shipping_address_id := some 7, billing_address_id := some 9 },
    linesInfoByToken := fun t =>
      if t = 5 then [{ line := sampleLine1 }, { line := sampleLine2 }] else [],
    checkoutInfoByToken := fun _ => { channel := { pk := 4 } },
    manager := { id := 0 },
    transactionsByCheckoutId := fun p =>
      if p = 1 then
        [{ amount_charged := { amount := 5, currency := "USD" },
           amount_charge_pending := { amount := 2, currency := "USD" } }]
      else [] }

/-- A sample checkout whose token is 5 (so it owns the two sample lines)
and whose primary key is 1 (so it owns the sample transaction). -/
def sampleCheckout : Checkout :=
  { pk := 1, token := 5, currency := "USD",
    shipping_address_id := some 7, billing_address_id := some 9 }

/-- A sample checkout with no lines, no transactions and no addresses. -/
def sampleEmptyCheckout : Checkout :=
  { pk := 2, token := 0, currency := "USD",
    shipping_address_id := none, billing_address_id := none }

/-- C9: the payment-transaction mutations package exports exactly the six
mutation classes `TransactionCreate`, `TransactionEventReport`,
`TransactionInitialize`, `TransactionProcess`, `TransactionRequestAction`
and `TransactionUpdate`; every name in `__all__` is bound by an import in
the module and the two name sets coincide. -/
theorem transaction_mutation_exports_exact :
    transactionMutationAllExports =
      ["TransactionCreate", "TransactionEventReport", "TransactionInitialize",
       "TransactionProcess", "TransactionRequestAction", "TransactionUpdate"] ∧
    (∀ n ∈ transactionMutationAllExports, n ∈ transactionMutationImports) ∧
    (∀ n ∈ transactionMutationImports, n ∈ transactionMutationAllExports) := by
  decide

/-- C10: `Checkout.resolve_quantity` returns the sum of the quantities of
all batched-loaded lines of the checkout, and returns 0 when the checkout
has no lines. -/
theorem checkout_resolve_quantity_sums_line_quantities (ctx : Context) (root : Checkout) :
    Checkout.resolve_quantity ctx root =
      (ctx.linesInfoByToken root.token).foldr
        (fun line_info acc => line_info.line.quantity + acc) 0 ∧
    (ctx.linesInfoByToken root.token = [] → Checkout.resolve_quantity ctx root = 0) := by
  constructor
  · unfold Checkout.resolve_quantity
    rw [List.sum_eq_foldr, List.foldr_map]
  · intro h
    unfold Checkout.resolve_quantity
    rw [h]
    rfl

/-- Witness for C10: on the sample context the checkout with token 5
resolves to quantity 5 and the empty checkout resolves to quantity 0. -/
theorem checkout_resolve_quantity_witness :
    Checkout.resolve_quantity sampleCtx sampleEmptyCheckout = 0 ∧
    Checkout.resolve_quantity sampleCtx sampleCheckout = 5 := by
  constructor
  · exact (checkout_resolve_quantity_sums_line_quantities sampleCtx sampleEmptyCheckout).2
      (by decide)
  · rw [(checkout_resolve_quantity_sums_line_quantities sampleCtx sampleCheckout).1]
    decide

/-- C5: `get_dataloaders_for_fetching_checkout_data` selects the shipping
address when `shipping_address_id` is set (a positive primary key),
otherwise the billing address when `billing_address_id` is set, and
returns `None` for the address when the checkout has neither, while the
lines, checkout-info and plugin-manager components are always produced
from the checkout token. -/
theorem get_dataloaders_address_selection (ctx : Context) (pk tok : Nat)
    (cur : String) (sid bid : Nat) (s b : Option Nat) :
    (get_dataloaders_for_fetching_checkout_data ctx
        { pk := pk, token := tok, currency := cur,
          shipping_address_id := some (sid + 1),
          billing_address_id := some (bid + 1) }).1 =
      some (ctx.addressById (sid + 1)) ∧
    (get_dataloaders_for_fetching_checkout_data ctx
        { pk := pk, token := tok, currency := cur,
          shipping_address_id := some (sid + 1),
          billing_address_id := none }).1 =
      some (ctx.addressById (sid + 1)) ∧
    (get_dataloaders_for_fetching_checkout_data ctx
        { pk := pk, token := tok, currency := cur,
          shipping_address_id := none,
          billing_address_id := some (bid + 1) }).1 =
      some (ctx.addressById (bid + 1)) ∧
    (get_dataloaders_for_fetching_checkout_data ctx
        { pk := pk, token := tok, currency := cur,
          shipping_address_id := none, billing_address_id := none }).1 = none ∧
    (get_dataloaders_for_fetching_checkout_data ctx
        { pk := pk, token := tok, currency := cur,
          shipping_address_id := s, billing_address_id := b }).2.1 =
      ctx.linesInfoByToken tok ∧
    (get_dataloaders_for_fetching_checkout_data ctx
        { pk := pk, token := tok, currency := cur,
          shipping_address_id := s, billing_address_id := b }).2.2.1 =
      ctx.checkoutInfoByToken tok ∧
    (get_dataloaders_for_fetching_checkout_data ctx
        { pk := pk, token := tok, currency := cur,
          shipping_address_id := s, billing_address_id := b }).2.2.2 = ctx.manager := by
  refine ⟨?_, ?_, ?_, ?_, rfl, rfl, rfl⟩ <;>
    simp [get_dataloaders_for_fetching_checkout_data, pyOr, pyTruthy]

/-- `max(t, zero_taxed_money cur)` succeeds when the gross currency of `t`
is `cur`, and clamps the total below at the zero taxed amount. -/
theorem taxedMoneyMax_zero (t : TaxedMoney) (cur : String)
    (h : t.gross.currency = cur) :
    taxedMoneyMax t (zero_taxed_money cur) =
      some (if t.gross.amount < 0 then zero_taxed_money cur else t) := by
  unfold taxedMoneyMax zero_taxed_money zero_money
  simp [h]

/-- The gross part of the clamped total: the maximum of the unclamped
gross amount and zero, in the checkout currency. -/
theorem clamped_gross (t : TaxedMoney) (cur : String)
    (h : t.gross.currency = cur) :
    (if t.gross.amount < 0 then zero_taxed_money cur else t).gross =
      { amount := max t.gross.amount 0, currency := cur } := by
  obtain ⟨net, ga, gc⟩ := t
  change gc = cur at h
  subst h
  by_cases hlt : ga < 0
  · simp [hlt, zero_taxed_money, zero_money, max_eq_right (le_of_lt hlt)]
  · simp [hlt, max_eq_left (not_lt.mp hlt)]

/-- Unfolding of `Checkout.resolve_total_price` on loaded data whose
computed total carries the checkout currency: the resolver returns the
clamped total. -/
theorem resolve_total_price_eq (E : CalcEngine) (ctx : Context) (root : Checkout)
    (address : Option Address) (lines : List CheckoutLineInfo)
    (checkout_info : CheckoutInfo) (manager : PluginsManager)
    (hload : get_dataloaders_for_fetching_checkout_data ctx root =
      (address, lines, checkout_info, manager))
    (hcur : (E.calculate_checkout_total_with_gift_cards manager checkout_info lines
        address).gross.currency = root.currency) :
    Checkout.resolve_total_price E ctx root =
      some (if (E.calculate_checkout_total_with_gift_cards manager checkout_info lines
                address).gross.amount < 0
            then zero_taxed_money root.currency
            else E.calculate_checkout_total_with_gift_cards manager checkout_info lines
                address) := by
  have h1 : Checkout.resolve_total_price E ctx root =
      taxedMoneyMax
        (E.calculate_checkout_total_with_gift_cards manager checkout_info lines address)
        (zero_taxed_money root.currency) := by
    unfold Checkout.resolve_total_price
    rw [hload]
  rw [h1, taxedMoneyMax_zero _ _ hcur]

/-- The transaction fold of `resolve_total_balance`: when every transaction
amount carries the checkout currency, folding the charged and pending
amounts from an initial amount yields their plain rational sum. -/
theorem charged_foldl (cur : String) (ts : List TransactionItem)
    (h : ∀ t ∈ ts, t.amount_charged.currency = cur ∧
      t.amount_charge_pending.currency = cur) (init : ℚ) :
    ts.foldl chargedStep (some { amount := init, currency := cur }) =
    some { amount := init + (ts.map fun t =>
             t.amount_charged.amount + t.amount_charge_pending.amount).sum,
           currency := cur } := by
  induction ts generalizing init with
  | nil => simp
  | cons t ts ih =>
    obtain ⟨h1, h2⟩ := h t (List.mem_cons_self t ts)
    have hstep : chargedStep (some { amount := init, currency := cur }) t =
        some { amount := init + (t.amount_charged.amount +
                 t.amount_charge_pending.amount), currency := cur } := by
      simp [chargedStep, Money.add, h1, h2]
      ring
    rw [List.foldl_cons, hstep,
      ih (fun x hx => h x (List.mem_cons_of_mem t hx))]
    simp [Money.mk.injEq]
    ring

/-- Unfolding of `Checkout.resolve_total_balance` on loaded data whose
computed total and transaction amounts carry the checkout currency: the
resolver returns the charged-plus-pending sum minus the clamped gross
total, in the checkout currency. -/
theorem resolve_total_balance_eq (E : CalcEngine) (ctx : Context) (root : Checkout)
    (address : Option Address) (lines : List CheckoutLineInfo)
    (checkout_info : CheckoutInfo) (manager : PluginsManager)
    (hload : get_dataloaders_for_fetching_checkout_data ctx root =
      (address, lines, checkout_info, manager))
    (hcur : (E.calculate_checkout_total_with_gift_cards manager checkout_info lines
        address).gross.currency = root.currency)
    (htrans : ∀ t ∈ ctx.transactionsByCheckoutId root.pk,
      t.amount_charged.currency = root.currency ∧
      t.amount_charge_pending.currency = root.currency) :
    Checkout.resolve_total_balance E ctx root =
      some { amount :=
               ((ctx.transactionsByCheckoutId root.pk).map fun t =>
                 t.amount_charged.amount + t.amount_charge_pending.amount).sum -
               max (E.calculate_checkout_total_with_gift_cards manager checkout_info
                 lines address).gross.amount 0,
             currency := root.currency } := by
  have h1 : Checkout.resolve_total_balance E ctx root =
      (taxedMoneyMax
        (E.calculate_checkout_total_with_gift_cards manager checkout_info lines address)
        (zero_taxed_money root.currency)).bind fun checkout_total =>
        ((ctx.transactionsByCheckoutId root.pk).foldl chargedStep
          (some (zero_money root.currency))).bind
          fun total_charged => total_charged.sub checkout_total.gross := by
    unfold Checkout.resolve_total_balance
    rw [hload]
  have h2 : (zero_money root.currency) =
      ({ amount := 0, currency := root.currency } : Money) := rfl
  rw [h1, taxedMoneyMax_zero _ _ hcur, Option.some_bind, h2,
    charged_foldl root.currency _ htrans 0, Option.some_bind,
    clamped_gross _ _ hcur]
  simp [Money.sub]

/-- C1: for every checkout, `Checkout.resolve_total_price` computes the
taxed checkout total with gift cards via the calculation engine from the
batched-loaded address, lines, checkout info and plugin manager, and
returns the maximum of that total and the zero taxed amount in the
checkout's currency, so the resolved total price is never negative. -/
theorem checkout_resolve_total_price_clamped_nonneg (E : CalcEngine) (ctx : Context)
    (root : Checkout) (address : Option Address) (lines : List CheckoutLineInfo)
    (checkout_info : CheckoutInfo) (manager : PluginsManager)
    (hload : get_dataloaders_for_fetching_checkout_data ctx root =
      (address, lines, checkout_info, manager))
    (hcur : (E.calculate_checkout_total_with_gift_cards manager checkout_info lines
        address).gross.currency = root.currency) :
    Checkout.resolve_total_price E ctx root =
      taxedMoneyMax
        (E.calculate_checkout_total_with_gift_cards manager checkout_info lines address)
        (zero_taxed_money root.currency) ∧
    ∃ total : TaxedMoney,
      Checkout.resolve_total_price E ctx root = some total ∧
      0 ≤ total.gross.amount ∧ total.gross.currency = root.currency := by
  constructor
  · unfold Checkout.resolve_total_price
    rw [hload]
  · refine ⟨_,
      resolve_total_price_eq E ctx root address lines checkout_info manager hload hcur,
      ?_, ?_⟩
    · rw [clamped_gross _ _ hcur]
      exact le_max_right _ _
    · rw [clamped_gross _ _ hcur]

/-- Witness for C1: on the sample data the resolved total is the engine's
total (nonnegative case), and with the negative-total engine the resolver
clamps to the zero taxed amount. -/
theorem checkout_resolve_total_price_witness :
    Checkout.resolve_total_price sampleEngine sampleCtx sampleCheckout =
      some { net := { amount := 10, currency := "USD" },
             gross := { amount := 12, currency := "USD" } } ∧
    Checkout.resolve_total_price sampleNegativeEngine sampleCtx sampleCheckout =
      some (zero_taxed_money "USD") := by
  constructor
  · rw [(checkout_resolve_total_price_clamped_nonneg sampleEngine sampleCtx
      sampleCheckout (some (sampleCtx.addressById 7)) (sampleCtx.linesInfoByToken 5)
      (sampleCtx.checkoutInfoByToken 5) sampleCtx.manager rfl rfl).1]
    decide
  · rw [(checkout_resolve_total_price_clamped_nonneg sampleNegativeEngine sampleCtx
      sampleCheckout (some (sampleCtx.addressById 7)) (sampleCtx.linesInfoByToken 5)
      (sampleCtx.checkoutInfoByToken 5) sampleCtx.manager rfl rfl).1]
    decide

/-- C2: for every checkout, `Checkout.resolve_total_balance` returns the
sum over the checkout's transactions of `amount_charged` plus
`amount_charge_pending` (started from the zero amount in the checkout's
currency), minus the gross part of the checkout total computed with gift
cards and clamped below at zero. -/
theorem checkout_resolve_total_balance_spec (E : CalcEngine) (ctx : Context)
    (root : Checkout) (address : Option Address) (lines : List CheckoutLineInfo)
    (checkout_info : CheckoutInfo) (manager : PluginsManager)
    (hload : get_dataloaders_for_fetching_checkout_data ctx root =
      (address, lines, checkout_info, manager))
    (hcur : (E.calculate_checkout_total_with_gift_cards manager checkout_info lines
        address).gross.currency = root.currency)
    (htrans : ∀ t ∈ ctx.transactionsByCheckoutId root.pk,
      t.amount_charged.currency = root.currency ∧
      t.amount_charge_pending.currency = root.currency) :
    (ctx.transactionsByCheckoutId root.pk).foldl chargedStep
        (some (zero_money root.currency)) =
      some { amount := ((ctx.transactionsByCheckoutId root.pk).map fun t =>
               t.amount_charged.amount + t.amount_charge_pending.amount).sum,
             currency := root.currency } ∧
    Checkout.resolve_total_balance E ctx root =
      some { amount :=
               ((ctx.transactionsByCheckoutId root.pk).map fun t =>
                 t.amount_charged.amount + t.amount_charge_pending.amount).sum -
               max (E.calculate_checkout_total_with_gift_cards manager checkout_info
                 lines address).gross.amount 0,
             currency := root.currency } := by
  constructor
  · have h2 : (zero_money root.currency) =
        ({ amount := 0, currency := root.currency } : Money) := rfl
    rw [h2, charged_foldl root.currency _ htrans 0]
    simp
  · exact resolve_total_balance_eq E ctx root address lines checkout_info manager
      hload hcur htrans

/-- Witness for C2: on the sample data (one transaction: 5 charged, 2
pending; total gross 12) the resolved balance is -5 USD. -/
theorem checkout_resolve_total_balance_witness :
    Checkout.resolve_total_balance sampleEngine sampleCtx sampleCheckout =
      some { amount := -5, currency := "USD" } := by
  rw [(checkout_resolve_total_balance_spec sampleEngine sampleCtx sampleCheckout
    (some (sampleCtx.addressById 7)) (sampleCtx.linesInfoByToken 5)
    (sampleCtx.checkoutInfoByToken 5) sampleCtx.manager rfl rfl (by decide)).2]
  have hmax : max (12 : ℚ) 0 = 12 := max_eq_left (by norm_num)
  simp [sampleCtx, sampleEngine, sampleCheckout, hmax]
  norm_num

/-- C4: for the same checkout, transactions and loaded data, the two
resolvers share the clamped checkout-total expression, so the resolved
total balance equals the charged-plus-pending transaction sum minus the
gross of the resolved total price. -/
theorem checkout_total_balance_matches_total_price (E : CalcEngine) (ctx : Context)
    (root : Checkout) (address : Option Address) (lines : List CheckoutLineInfo)
    (checkout_info : CheckoutInfo) (manager : PluginsManager)
    (hload : get_dataloaders_for_fetching_checkout_data ctx root =
      (address, lines, checkout_info, manager))
    (hcur : (E.calculate_checkout_total_with_gift_cards manager checkout_info lines
        address).gross.currency = root.currency)
    (htrans : ∀ t ∈ ctx.transactionsByCheckoutId root.pk,
      t.amount_charged.currency = root.currency ∧
      t.amount_charge_pending.currency = root.currency) :
    ∃ total balance,
      Checkout.resolve_total_price E ctx root = some total ∧
      Checkout.resolve_total_balance E ctx root = some balance ∧
      balance.currency = root.currency ∧
      balance.amount =
        ((ctx.transactionsByCheckoutId root.pk).map fun t =>
          t.amount_charged.amount + t.amount_charge_pending.amount).sum -
        total.gross.amount := by
  refine ⟨_, _,
    resolve_total_price_eq E ctx root address lines checkout_info manager hload hcur,
    resolve_total_balance_eq E ctx root address lines checkout_info manager hload hcur
      htrans, rfl, ?_⟩
  rw [clamped_gross _ _ hcur]

/-- Witness for C4: the sample balance (-5 USD) equals the sample
transaction sum (7) minus the sample resolved total gross (12). -/
theorem checkout_total_balance_matches_total_price_witness :
    ∃ total balance,
      Checkout.resolve_total_price sampleEngine sampleCtx sampleCheckout = some total ∧
      Checkout.resolve_total_balance sampleEngine sampleCtx sampleCheckout =
        some balance ∧
      balance.currency = sampleCheckout.currency ∧
      balance.amount =
        ((sampleCtx.transactionsByCheckoutId sampleCheckout.pk).map fun t =>
          t.amount_charged.amount + t.amount_charge_pending.amount).sum -
        total.gross.amount :=
  checkout_total_balance_matches_total_price sampleEngine sampleCtx sampleCheckout
    (some (sampleCtx.addressById 7)) (sampleCtx.linesInfoByToken 5)
    (sampleCtx.checkoutInfoByToken 5) sampleCtx.manager rfl rfl (by decide)

/-- C3 counterexample: `Checkout.resolve_authorize_status` is among the
resolvers the claim lists as guarded, yet its decorator stack in the
source is `classmethod` alone, without
`prevent_sync_event_circular_query`; so the claim as stated is false. -/
theorem authorize_status_resolver_unguarded :
    "Checkout.resolve_authorize_status" ∈ syncEngineResolvers ∧
    checkoutResolverDecorators.lookup "Checkout.resolve_authorize_status" =
      some ["classmethod"] ∧
    resolverIsGuarded "Checkout.resolve_authorize_status" = false ∧
    resolverIsGuarded "Checkout.resolve_charge_status" = false ∧
    ¬ (∀ r ∈ syncEngineResolvers, resolverIsGuarded r = true) := by
  refine ⟨by decide, by decide, by decide, by decide, fun h => ?_⟩
  have := h "Checkout.resolve_authorize_status" (by decide)
  exact absurd this (by decide)

/-- C3 amended: every resolver the claim lists as invoking the synchronous
calculation engine, except `Checkout.resolve_authorize_status` and
`Checkout.resolve_charge_status`, carries the
`prevent_sync_event_circular_query` decorator. -/
theorem sync_engine_resolvers_guarded (r : String)
    (hr : r ∈ syncEngineResolvers)
    (ha : r ≠ "Checkout.resolve_authorize_status")
    (hc : r ≠ "Checkout.resolve_charge_status") :
    resolverIsGuarded r = true := by
  fin_cases hr
  case _ => rfl
  case _ => rfl
  case _ => rfl
  case _ => rfl
  case _ => rfl
  case _ => rfl
  case _ => rfl
  case _ => rfl
  case _ => exact absurd rfl ha
  case _ => exact absurd rfl hc

/-- Witness for the amended C3: the checkout total-price resolver carries
the guard. -/
theorem sync_engine_resolvers_guarded_witness :
    resolverIsGuarded "Checkout.resolve_total_price" = true :=
  sync_engine_resolvers_guarded "Checkout.resolve_total_price"
    (by decide) (by decide) (by decide)

/-- `find?` returns the first element satisfying the predicate: on a list
split as `pre ++ x :: post` with nothing in `pre` satisfying `p` and `x`
satisfying it, the result is `x`. -/
theorem find_first_of_split {α : Type} (p : α → Bool) (pre post : List α) (x : α)
    (hpre : ∀ y ∈ pre, p y = false) (hx : p x = true) :
    (pre ++ x :: post).find? p = some x := by
  induction pre with
  | nil =>
    simpa using List.find?_cons_of_pos post hx
  | cons a l ih =>
    have ha := hpre a (List.mem_cons_self a l)
    rw [List.cons_append, List.find?_cons_of_neg _ (by simp [ha]),
      ih fun y hy => hpre y (List.mem_cons_of_mem a hy)]

/-- C6: each per-line price resolver computes the price of exactly the
first loaded line info whose `line.pk` equals the resolved line's `pk`,
and returns `None` when no loaded line info for the checkout matches,
although the four corresponding GraphQL fields are declared required. -/
theorem checkout_line_price_resolvers_first_match (E : CalcEngine) (ctx : Context)
    (root : CheckoutLine) :
    ((∀ li ∈ ctx.linesInfoByToken (ctx.checkoutByToken root.checkout_id).token,
        li.line.pk ≠ root.pk) →
      CheckoutLine.resolve_unit_price E ctx root = none ∧
      CheckoutLine.resolve_total_price E ctx root = none ∧
      CheckoutLine.resolve_undiscounted_unit_price E ctx root = none ∧
      CheckoutLine.resolve_undiscounted_total_price E ctx root = none) ∧
    (∀ pre li post,
      ctx.linesInfoByToken (ctx.checkoutByToken root.checkout_id).token =
        pre ++ li :: post →
      (∀ x ∈ pre, x.line.pk ≠ root.pk) → li.line.pk = root.pk →
      CheckoutLine.resolve_unit_price E ctx root =
        some (E.checkout_line_unit_price ctx.manager
          (ctx.checkoutInfoByToken (ctx.checkoutByToken root.checkout_id).token)
          (ctx.linesInfoByToken (ctx.checkoutByToken root.checkout_id).token) li) ∧
      CheckoutLine.resolve_total_price E ctx root =
        some (E.checkout_line_total ctx.manager
          (ctx.checkoutInfoByToken (ctx.checkoutByToken root.checkout_id).token)
          (ctx.linesInfoByToken (ctx.checkoutByToken root.checkout_id).token) li) ∧
      CheckoutLine.resolve_undiscounted_unit_price E ctx root =
        some (E.calculate_undiscounted_base_line_unit_price li
          (ctx.checkoutInfoByToken
            (ctx.checkoutByToken root.checkout_id).token).channel) ∧
      CheckoutLine.resolve_undiscounted_total_price E ctx root =
        some (E.calculate_undiscounted_base_line_total_price li
          (ctx.checkoutInfoByToken
            (ctx.checkoutByToken root.checkout_id).token).channel)) ∧
    checkoutLineFields.lookup "unit_price" = some true ∧
    checkoutLineFields.lookup "total_price" = some true ∧
    checkoutLineFields.lookup "undiscounted_unit_price" = some true ∧
    checkoutLineFields.lookup "undiscounted_total_price" = some true := by
  refine ⟨?_, ?_, rfl, rfl, rfl, rfl⟩
  · intro hnone
    have hfind : (ctx.linesInfoByToken
        (ctx.checkoutByToken root.checkout_id).token).find?
          (fun li => li.line.pk == root.pk) = none := by
      apply List.find?_eq_none.mpr
      intro x hx
      simpa using hnone x hx
    refine ⟨?_, ?_, ?_, ?_⟩ <;>
      simp [CheckoutLine.resolve_unit_price, CheckoutLine.resolve_total_price,
        CheckoutLine.resolve_undiscounted_unit_price,
        CheckoutLine.resolve_undiscounted_total_price, hfind]
  · intro pre li post hsplit hpre hli
    have hfind : (ctx.linesInfoByToken
        (ctx.checkoutByToken root.checkout_id).token).find?
          (fun l => l.line.pk == root.pk) = some li := by
      rw [hsplit]
      apply find_first_of_split
      · intro y hy
        simpa using hpre y hy
      · simpa using hli
    refine ⟨?_, ?_, ?_, ?_⟩ <;>
      simp [CheckoutLine.resolve_unit_price, CheckoutLine.resolve_total_price,
        CheckoutLine.resolve_undiscounted_unit_price,
        CheckoutLine.resolve_undiscounted_total_price, hfind]

/-- Witness for C6: the line with primary key 3 matches no loaded line of
checkout token 5, so the unit-price resolver returns `None`; the line
with primary key 2 matches the second loaded line, whose price is
computed. -/
theorem checkout_line_price_resolvers_witness :
    CheckoutLine.resolve_unit_price sampleEngine sampleCtx
      { pk := 3, quantity := 1, checkout_id := 5 } = none ∧
    CheckoutLine.resolve_unit_price sampleEngine sampleCtx
      { pk := 2, quantity := 3, checkout_id := 5 } =
      some (sampleEngine.checkout_line_unit_price sampleCtx.manager
        (sampleCtx.checkoutInfoByToken 5) (sampleCtx.linesInfoByToken 5)
        { line := sampleLine2 }) := by
  constructor
  · exact ((checkout_line_price_resolvers_first_match sampleEngine sampleCtx
      { pk := 3, quantity := 1, checkout_id := 5 }).1 (by decide)).1
  · exact ((checkout_line_price_resolvers_first_match sampleEngine sampleCtx
      { pk := 2, quantity := 3, checkout_id := 5 }).2.1
      [{ line := sampleLine1 }] { line := sampleLine2 } []
      rfl (by decide) rfl).1

/-- A sample customer account (primary key 1). -/
def sampleCustomer : User :=
  { pk := 1, email := "customer@example.com",
    search_document := ["customer@example.com"] }

/-- A sample staff account (primary key 2). -/
def sampleStaff : User :=
  { pk := 2, email := "staff@example.com",
    search_document := ["staff@example.com"] }

/-- A sample account state holding the customer and staff users, with no
gift-card or order reassignment calls recorded yet. -/
def sampleAccounts : AccountState :=
  { users := [sampleCustomer, sampleStaff],
    gift_card_assign_calls := [], order_match_calls := [] }

/-- C7: when the token's `new_email` already belongs to another user, the
confirmEmailChange mutation returns no user and exactly one error with
code UNIQUE, field newEmail and message "Email is used by other user.",
and the account state — hence the requesting user's email — is
unchanged. -/
theorem confirm_email_change_duplicate_email (st : AccountState)
    (payload : EmailChangePayload) (other : User)
    (hother : other ∈ st.users) (hemail : other.email = payload.new_email) :
    (confirmEmailChange st payload).user = none ∧
    (confirmEmailChange st payload).errors =
      [{ code := "UNIQUE", message := "Email is used by other user.",
         field := "newEmail" }] ∧
    (confirmEmailChange st payload).state = st := by
  have hany : (st.users.any fun u => u.email == payload.new_email) = true :=
    List.any_eq_true.mpr ⟨other, hother, by simp [hemail]⟩
  refine ⟨?_, ?_, ?_⟩ <;> simp [confirmEmailChange, hany]

/-- Witness for C7: changing the sample customer's email to the staff
user's email fails with the UNIQUE error and leaves the state intact. -/
theorem confirm_email_change_duplicate_email_witness :
    (confirmEmailChange sampleAccounts
      { old_email := "customer@example.com", new_email := "staff@example.com",
        user_pk := 1 }).user = none ∧
    (confirmEmailChange sampleAccounts
      { old_email := "customer@example.com", new_email := "staff@example.com",
        user_pk := 1 }).errors =
      [{ code := "UNIQUE", message := "Email is used by other user.",
         field := "newEmail" }] ∧
    (confirmEmailChange sampleAccounts
      { old_email := "customer@example.com", new_email := "staff@example.com",
        user_pk := 1 }).state = sampleAccounts :=
  confirm_email_change_duplicate_email sampleAccounts
    { old_email := "customer@example.com", new_email := "staff@example.com",
      user_pk := 1 }
    sampleStaff (by decide) rfl

/-- The email update preserves every user's primary key. -/
theorem emailUpdate_pk (payload : EmailChangePayload) (u : User) :
    (emailUpdate payload u).pk = u.pk := by
  unfold emailUpdate
  by_cases h : (u.pk == payload.user_pk) = true <;> simp [h]

/-- Looking a user up by primary key commutes with mapping a pk-preserving
update over the user table. -/
theorem find_pk_map (f : User → User) (hf : ∀ u, (f u).pk = u.pk)
    (l : List User) (k : Nat) :
    (l.map f).find? (fun u => u.pk == k) =
      (l.find? (fun u => u.pk == k)).map f := by
  induction l with
  | nil => rfl
  | cons u l ih =>
    by_cases h : (u.pk == k) = true
    · have e1 : (f u :: l.map f).find? (fun x => x.pk == k) = some (f u) :=
        List.find?_cons_of_pos _ (by simpa [hf] using h)
      have e2 : (u :: l).find? (fun x => x.pk == k) = some u :=
        List.find?_cons_of_pos _ h
      rw [List.map_cons, e1, e2]
      rfl
    · have e1 : (f u :: l.map f).find? (fun x => x.pk == k) =
          (l.map f).find? (fun x => x.pk == k) :=
        List.find?_cons_of_neg _ (by simpa [hf] using h)
      have e2 : (u :: l).find? (fun x => x.pk == k) =
          l.find? (fun x => x.pk == k) :=
        List.find?_cons_of_neg _ h
      rw [List.map_cons, e1, e2, ih]

/-- C8: for a valid, unexpired token whose payload names the requesting
user and a fresh `new_email`, the mutation returns the user with the
email set to `new_email`, records the new email in the stored user's
search document, and reassigns gift cards and orders to that user exactly
once each. -/
theorem confirm_email_change_success (st : AccountState)
    (payload : EmailChangePayload) (u0 : User)
    (hfind : st.users.find? (fun u => u.pk == payload.user_pk) = some u0)
    (hfresh : ∀ u ∈ st.users, u.email ≠ payload.new_email)
    (hgift : st.gift_card_assign_calls = [])
    (horder : st.order_match_calls = []) :
    ∃ updated : User,
      (confirmEmailChange st payload).user = some updated ∧
      updated.pk = u0.pk ∧
      updated.email = payload.new_email ∧
      payload.new_email ∈ updated.search_document ∧
      (confirmEmailChange st payload).state.users.find?
        (fun u => u.pk == payload.user_pk) = some updated ∧
      (confirmEmailChange st payload).state.gift_card_assign_calls =
        [payload.user_pk] ∧
      (confirmEmailChange st payload).state.order_match_calls =
        [payload.user_pk] ∧
      (confirmEmailChange st payload).errors = [] := by
  have hany : (st.users.any fun u => u.email == payload.new_email) = false := by
    rw [List.any_eq_false]
    intro u hu
    simpa using hfresh u hu
  have hres : confirmEmailChange st payload =
      { state := { users := st.users.map (emailUpdate payload),
                   gift_card_assign_calls :=
                     st.gift_card_assign_calls ++ [payload.user_pk],
                   order_match_calls :=
                     st.order_match_calls ++ [payload.user_pk] },
        user := (st.users.map (emailUpdate payload)).find?
          fun u => u.pk == payload.user_pk,
        errors := [] } := by
    unfold confirmEmailChange
    rw [hany]
    rfl
  have hufind : (st.users.map (emailUpdate payload)).find?
      (fun u => u.pk == payload.user_pk) = some (emailUpdate payload u0) := by
    rw [find_pk_map (emailUpdate payload) (emailUpdate_pk payload) st.users
      payload.user_pk, hfind]
    rfl
  have hu0pk := List.find?_some hfind
  have hupd : emailUpdate payload u0 =
      { u0 with email := payload.new_email,
                search_document := u0.search_document ++ [payload.new_email] } := by
    unfold emailUpdate
    rw [if_pos hu0pk]
  refine ⟨emailUpdate payload u0, ?_, ?_, ?_, ?_, ?_, ?_, ?_, ?_⟩
  · rw [hres]
    exact hufind
  · rw [hupd]
  · rw [hupd]
  · rw [hupd]
    simp
  · rw [hres]
    exact hufind
  · rw [hres, hgift]
    rfl
  · rw [hres, horder]
    rfl
  · rw [hres]

/-- Witness for C8: changing the sample customer's email to a fresh
address succeeds, updates the stored user and records exactly one
gift-card and one order reassignment. -/
theorem confirm_email_change_success_witness :
    ∃ updated : User,
      (confirmEmailChange sampleAccounts
        { old_email := "customer@example.com",
          new_email := "new_email@example.com", user_pk := 1 }).user =
        some updated ∧
      updated.pk = sampleCustomer.pk ∧
      updated.email = "new_email@example.com" ∧
      "new_email@example.com" ∈ updated.search_document ∧
      (confirmEmailChange sampleAccounts
        { old_email := "customer@example.com",
          new_email := "new_email@example.com", user_pk := 1 }).state.users.find?
        (fun u => u.pk == 1) = some updated ∧
      (confirmEmailChange sampleAccounts
        { old_email := "customer@example.com",
          new_email := "new_email@example.com",
          user_pk := 1 }).state.gift_card_assign_calls = [1] ∧
      (confirmEmailChange sampleAccounts
        { old_email := "customer@example.com",
          new_email := "new_email@example.com",
          user_pk := 1 }).state.order_match_calls = [1] ∧
      (confirmEmailChange sampleAccounts
        { old_email := "customer@example.com",
          new_email := "new_email@example.com", user_pk := 1 }).errors = [] :=
  confirm_email_change_success sampleAccounts
    { old_email := "customer@example.com", new_email := "new_email@example.com",
      user_pk := 1 }
    sampleCustomer rfl (by decide) rfl rfl

end Saleor
